import Mathlib

/-!
Verification of SimpleImageSR: a shallow embedding of the two scripts
`scripts/convert_pth2coreml_new.py` (the CoreML converter) and
`scripts/quick_sr.py` (the inference runner), with theorems settling the
specification claims about them.

Numeric values (numpy / torch floats) are modelled as rationals; machine
8-bit conversion is modelled explicitly (C-cast truncation toward zero).
Third-party library calls (torch, coremltools, PIL) are modelled as
oracles / events where a claim needs them.
-/

namespace SimpleImageSR

/-- `np.clip(v, lo, hi)` and `torch.clamp(v, lo, hi)`: for `lo ≤ hi` both
compute `min (max v lo) hi`. -/
def clip (lo hi v : ℚ) : ℚ := min (max v lo) hi

/-- numpy `astype(np.uint8)` performs a C cast: truncation toward zero.
On nonnegative values this is the floor. -/
def truncQ (v : ℚ) : ℤ := if 0 ≤ v then ⌊v⌋ else ⌈v⌉

/-- numpy `round`: round half to even (banker's rounding).  Used only to
state the spec's wording of the 8-bit conversion, never taken from the
source code. -/
def roundHalfEven (v : ℚ) : ℤ :=
  if v - ⌊v⌋ < 1/2 then ⌊v⌋
  else if 1/2 < v - ⌊v⌋ then ⌊v⌋ + 1
  else if ⌊v⌋ % 2 = 0 then ⌊v⌋ else ⌊v⌋ + 1

namespace Converter

/-!
Embedding of `scripts/convert_pth2coreml_new.py`.
-/

/-- The names listed in the parenthesised import at lines 26-28 of the
converter script, a from-import of `quantization_utils` whose
parenthesised name list holds the sole token `/` (a slash). -/
def importedNames : List String := ["/"]

/-- A Python identifier starts with a letter or underscore. -/
def isPyIdentStart (c : Char) : Bool := c.isAlpha || c = '_'

/-- Later characters of a Python identifier are letters, digits or
underscores. -/
def isPyIdentChar (c : Char) : Bool := c.isAlphanum || c = '_'

/-- Python identifier (ASCII fragment of the grammar, which covers every
name that could occur here): nonempty, valid start, valid continuation. -/
def isPyIdentifier (s : String) : Bool :=
  match s.data with
  | [] => false
  | c :: cs => isPyIdentStart c && cs.all isPyIdentChar

/-- A `from M import (a, b, ...)` statement parses only when every listed
name is an identifier (Python grammar: import-as-names are NAME tokens).
The whole module is parsed before any statement runs, so the module loads
only if this holds. -/
def moduleParses : Bool := importedNames.all isPyIdentifier

/-- A checkpoint as `torch.load` returns it: a mapping from top-level keys
to state dicts; a state dict maps parameter names to flat tensors. -/
abbrev ParamDict := List (String × List ℚ)

abbrev Checkpoint := List (String × ParamDict)

/-- Association-list lookup, first match wins (Python dict `in` / `[]`). -/
def lookupCkpt (ckpt : Checkpoint) (k : String) : Option ParamDict :=
  match ckpt with
  | [] => none
  | (k', v) :: rest => if k' = k then some v else lookupCkpt rest k

structure RRDBNetModel where
  params : ParamDict
deriving DecidableEq

/-- `load_rrdbnet` (converter lines 61-77): build the fixed RRDBNet and
load the checkpoint; the `for key in ("params_ema", "params")` loop takes
`params_ema` first, then `params`; the for-else raises when both are
absent (message in the source is Japanese: the two keys were not found). -/
def load_rrdbnet (ckpt : Checkpoint) : Except String RRDBNetModel :=
  match lookupCkpt ckpt "params_ema" with
  | some d => Except.ok ⟨d⟩
  | none =>
    match lookupCkpt ckpt "params" with
    | some d => Except.ok ⟨d⟩
    | none => Except.error "params_ema / params key not found"

/-- Observable steps of the converter `main` (lines 80-182), in program
order.  Stdout info prints are elided; `printError` is the except-clause
report to stderr, `exitNonzero` is `sys.exit(1)`. -/
inductive CEvent
  | buildModel
  | loadCheckpoint
  | declareIO
  | traceModel
  | convert
  | quantize
  | saveFile (path : String)
  | printError
  | exitNonzero
deriving DecidableEq, BEq

inductive ConvOutcome
  /-- the module failed to parse; Python exits with status 1 before any
  statement of the script runs -/
  | syntaxError
  /-- the except clause ran: error printed, `sys.exit(1)` -/
  | exitErr
  /-- `Conversion complete.`: the model was saved at the given path -/
  | done (savedPath : String)
deriving DecidableEq

structure ConvArgs where
  pth : String
  out : String
  float16 : Bool
  target : String
  minDim : Int
  maxDim : Int
  traceSize : Int
deriving DecidableEq

/-- The body of the converter `main` (lines 109-182), as written.  The
library calls after a successful weight load (jit trace, `ct.convert`,
quantization, save) are outside this repository; `libOk` abstracts
whether any of them raises, in which case the same except clause runs
(the exact failing call does not matter to any claim). -/
def mainConverter (args : ConvArgs) (ckpt : Checkpoint) (libOk : Bool) :
    ConvOutcome × List CEvent :=
  match load_rrdbnet ckpt with
  | Except.error _ =>
      (ConvOutcome.exitErr,
       [CEvent.buildModel, CEvent.loadCheckpoint, CEvent.printError,
        CEvent.exitNonzero])
  | Except.ok _ =>
      if libOk then
        (ConvOutcome.done args.out,
         [CEvent.buildModel, CEvent.loadCheckpoint, CEvent.declareIO,
          CEvent.traceModel, CEvent.convert]
           ++ (if args.float16 then [CEvent.quantize] else [])
           ++ [CEvent.saveFile args.out])
      else
        (ConvOutcome.exitErr,
         [CEvent.buildModel, CEvent.loadCheckpoint, CEvent.declareIO,
          CEvent.printError, CEvent.exitNonzero])

/-- Running the converter script: Python first parses the whole module;
only if that succeeds does any statement (hence `main`) run. -/
def runConverterScript (args : ConvArgs) (ckpt : Checkpoint) (libOk : Bool) :
    ConvOutcome × List CEvent :=
  if moduleParses then mainConverter args ckpt libOk
  else (ConvOutcome.syntaxError, [])

/-- `ClampedModel.forward` (lines 41-58): run the base model, clamp every
element to [0,1], multiply by 255. -/
def clampedForward (baseModel : List ℚ → List ℚ) (x : List ℚ) : List ℚ :=
  (baseModel x).map (fun v => clip 0 1 v * 255)

end Converter

namespace QuickSR

/-!
Embedding of `scripts/quick_sr.py`.
-/

/-- A PIL image as the runner sees it: its mode string (`RGB`, `L`, `F`,
...), its dimensions, and its pixel data flattened to a list.
`np.array` of a PIL image yields a float array exactly for float modes
(mode `F`); `RGB` / `L` decode to uint8. -/
structure PImage where
  mode : String
  height : Nat
  width : Nat
  px : List ℚ
deriving DecidableEq

/-- A value of the prediction dictionary: either a PIL image or a value
of some other Python type (carrying its type name). -/
inductive PredValue
  | image (img : PImage)
  | other (typeName : String)
deriving DecidableEq

/-- Python dict membership / item access over the insertion-ordered
key-value pairs of the prediction result. -/
def lookupPV (result : List (String × PredValue)) (k : String) :
    Option PredValue :=
  match result with
  | [] => none
  | (k', v) :: rest => if k' = k then some v else lookupPV rest k

/-- Output-key selection (lines 73-81): take `output_image` when present;
otherwise `next(iter(result.keys()))` — the first key — with a DEBUG
print reporting the fallback (the Bool records whether that print runs);
an empty result makes `next` raise StopIteration. -/
def selectOutput (result : List (String × PredValue)) :
    Option (String × PredValue × Bool) :=
  match lookupPV result "output_image" with
  | some v => some ("output_image", v, false)
  | none =>
    match result with
    | [] => none
    | (k, v) :: _ => some (k, v, true)

/-- `arr.max()` of a numpy array (callers guarantee nonemptiness; numpy
raises on an empty array, a case no claim exercises). -/
def arrMax : List ℚ → ℚ
  | [] => 0
  | x :: xs => xs.foldl max x

/-- The save path of `main` (lines 132-137): if the array's max is ≤ 1,
multiply by 255, clip to [0,255] and cast to uint8; otherwise clip to
[0,255] and cast to uint8.  The cast truncates toward zero. -/
def finalImage (arr : List ℚ) : List ℤ :=
  if arrMax arr ≤ 1 then
    arr.map (fun v => truncQ (clip 0 255 (v * 255)))
  else
    arr.map (fun v => truncQ (clip 0 255 v))

/-- The spec's wording of the save path, with `round` (numpy rounding,
half to even) in place of the cast.  Stated from the spec only, for
comparison with `finalImage`. -/
def specFinalImageRound (arr : List ℚ) : List ℤ :=
  if arrMax arr ≤ 1 then
    arr.map (fun v => roundHalfEven (clip 0 255 (v * 255)))
  else
    arr.map (fun v => roundHalfEven (clip 0 255 v))

/-- The save path with the 8-bit conversion stated as a floor: the
amended form of the spec's claim. -/
def specFinalImageFloor (arr : List ℚ) : List ℤ :=
  if arrMax arr ≤ 1 then
    arr.map (fun v => ⌊clip 0 255 (v * 255)⌋)
  else
    arr.map (fun v => ⌊clip 0 255 v⌋)

/-- `np.issubdtype(np.array(out).dtype, np.floating)`: true exactly for
PIL float mode `F`. -/
def npIsFloat (img : PImage) : Bool := img.mode = "F"

/-- `os.path.join` for the relative names used by the runner. -/
def pathJoin (d f : String) : String := d ++ "/" ++ f

/-- A file written by `Image.fromarray(img).save(path)`: an image file
whose decoded form has these dimensions, channel count, sample width and
samples. -/
structure SavedFile where
  height : Nat
  width : Nat
  channels : Nat
  bitsPerSample : Nat
  px : List ℤ
deriving DecidableEq, BEq

/-- Channel count of a PIL mode as relevant here: `RGB` has 3 channels;
the other modes the pipeline can produce (`L` from a 2-d uint8 array,
`F`) have 1. -/
def modeChannels (m : String) : Nat := if m = "RGB" then 3 else 1

/-- Lines 132-137 as a file: `np.array(out)` keeps the image's shape,
the clip/cast is elementwise (shape-preserving), `Image.fromarray` of a
uint8 array yields an image of the same dimensions with 8-bit samples,
and `save` encodes it losslessly (PNG). -/
def saveOutputImage (out : PImage) : SavedFile :=
  ⟨out.height, out.width, modeChannels out.mode, 8, finalImage out.px⟩

/-- `load_image` (lines 12-15): `Image.open(path).convert("RGB")`.
Decoding preserves the file's dimensions; `convert` forces 3-channel
8-bit RGB.  The per-channel expansion of grayscale data is elided (no
claim inspects reloaded pixel values). -/
def load_image (f : SavedFile) : PImage :=
  ⟨"RGB", f.height, f.width, f.px.map (fun z => (z : ℚ))⟩

/-- Modelled from the spec: the network the converter exports is the
fixed RRDBNet with `scale=4` (converter line 67), and the spec's data
model states a 4x upscale; the architecture's code lives in the
third-party `basicsr` package, so its output geometry — four times the
input's height and width — is taken from the spec. -/
def modelOutputDims (h w : Nat) : Nat × Nat := (4 * h, 4 * w)

/-- The runner's external collaborators, as oracles: loading the CoreML
model (its value is irrelevant to the claims), opening the input image,
and running prediction on it. -/
structure RunEnv where
  loadModel : Except String Unit
  loadInput : Except String PImage
  predictResult : PImage → Except String (List (String × PredValue))

/-- How a run of the runner's `main` ends. -/
inductive RunOutcome
  /-- caught: an error message is printed and `main` returns early -/
  | softErr (msg : String)
  /-- an exception propagates out of `main`: the process crashes -/
  | uncaught (msg : String)
  /-- `main` runs to its end -/
  | finished
deriving DecidableEq

/-- Observable effects of the runner, in program order.  Plain stdout
diagnostics are elided except the two a claim mentions: the caught-error
report and the fallback-key DEBUG print. -/
inductive REvent
  | printErr (msg : String)
  | printFallback (key : String)
  | saveNpy (path : String)
  | saveFig (path : String)
  | saveImage (path : String) (file : SavedFile)
  | makeDirs (dir : String)
deriving DecidableEq, BEq

/-- `main` of `quick_sr.py` (lines 37-160): model load in a try/except
that prints and returns; image load at line 55 with no handler, so its
failure propagates; prediction in a try/except that prints and returns;
output-key selection; the type check raising TypeError (uncaught) on a
non-image value; then, in this order: the float-dtype block writing
`output_float.npy` and `hist_output_float.png` into the histogram
directory (lines 113-127), the output image save (line 137),
`os.makedirs(hist_dir, exist_ok=True)` (line 141), and the
`hist_output.png` save (line 159). -/
def quickSRMain (env : RunEnv) (histDir outputPath : String) :
    RunOutcome × List REvent :=
  match env.loadModel with
  | Except.error e => (RunOutcome.softErr e, [REvent.printErr e])
  | Except.ok _ =>
    match env.loadInput with
    | Except.error e => (RunOutcome.uncaught e, [])
    | Except.ok inp =>
      match env.predictResult inp with
      | Except.error e => (RunOutcome.softErr e, [REvent.printErr e])
      | Except.ok result =>
        match selectOutput result with
        | none => (RunOutcome.uncaught "StopIteration", [])
        | some (key, val, fellBack) =>
          let fbEvents := if fellBack then [REvent.printFallback key] else []
          match val with
          | PredValue.other t =>
              (RunOutcome.uncaught ("TypeError: " ++ t), fbEvents)
          | PredValue.image out =>
              (RunOutcome.finished,
               fbEvents
                 ++ (if npIsFloat out then
                       [REvent.saveNpy (pathJoin histDir "output_float.npy"),
                        REvent.saveFig (pathJoin histDir "hist_output_float.png")]
                     else [])
                 ++ [REvent.saveImage outputPath (saveOutputImage out),
                     REvent.makeDirs histDir,
                     REvent.saveFig (pathJoin histDir "hist_output.png")])

end QuickSR

end SimpleImageSR

namespace SimpleImageSR

/-- C1: the slash is not a Python identifier, so the import list at lines
26-28 does not parse: every invocation of the converter script, whatever
its arguments and checkpoint, stops at the syntax error with no events:
the checkpoint is never loaded, no file is written, and the success path
is never reached. -/
theorem converter_import_never_parses
    (args : Converter.ConvArgs) (ckpt : Converter.Checkpoint) (libOk : Bool) :
    Converter.runConverterScript args ckpt libOk =
      (Converter.ConvOutcome.syntaxError, []) := by
  have h : Converter.moduleParses = false := by decide
  simp [Converter.runConverterScript, h]

/-- C2: every element of the wrapped model's output, the base model's
output clamped to [0,1] then multiplied by 255, lies in [0, 255], for any
base model and any input. -/
theorem clampedForward_bounds
    (baseModel : List ℚ → List ℚ) (x : List ℚ) (v : ℚ)
    (hv : v ∈ Converter.clampedForward baseModel x) :
    0 ≤ v ∧ v ≤ 255 := by
  simp only [Converter.clampedForward, List.mem_map] at hv
  obtain ⟨u, _, rfl⟩ := hv
  unfold clip
  constructor
  · have h0 : (0:ℚ) ≤ min (max u 0) 1 := le_min (le_max_right u 0) zero_le_one
    nlinarith
  · have h1 : min (max u 0) 1 ≤ (1:ℚ) := min_le_right _ _
    nlinarith

/-- Witness for C2 at a concrete base model and input. -/
theorem clampedForward_bounds_witness :
    (0:ℚ) ≤ 255 ∧ (255:ℚ) ≤ 255 := by
  have h : (255:ℚ) ∈ Converter.clampedForward (fun _ => [2]) [] := by
    norm_num [Converter.clampedForward, clip]
  exact clampedForward_bounds (fun _ => [2]) [] 255 h

/-- C4: a checkpoint containing neither `params_ema` nor `params` makes
`main` take the except path: the error is reported, the process exits
nonzero, and the event trace contains no conversion and no file write. -/
theorem missing_keys_fatal
    (args : Converter.ConvArgs) (ckpt : Converter.Checkpoint) (libOk : Bool)
    (h1 : Converter.lookupCkpt ckpt "params_ema" = none)
    (h2 : Converter.lookupCkpt ckpt "params" = none) :
    Converter.mainConverter args ckpt libOk =
      (Converter.ConvOutcome.exitErr,
       [Converter.CEvent.buildModel, Converter.CEvent.loadCheckpoint,
        Converter.CEvent.printError, Converter.CEvent.exitNonzero]) ∧
    (∀ p, Converter.CEvent.saveFile p ∉ (Converter.mainConverter args ckpt libOk).2) ∧
    Converter.CEvent.convert ∉ (Converter.mainConverter args ckpt libOk).2 := by
  have hload : Converter.load_rrdbnet ckpt =
      Except.error "params_ema / params key not found" := by
    simp [Converter.load_rrdbnet, h1, h2]
  refine ⟨?_, ?_, ?_⟩ <;> simp [Converter.mainConverter, hload]

/-- Witness for C4: the checkpoint holding only a key `foo`. -/
theorem missing_keys_fatal_witness :
    Converter.mainConverter ⟨"w.pth", "m.mlpackage", false, "mac", 64, 2048, 64⟩
        [("foo", [])] true =
      (Converter.ConvOutcome.exitErr,
       [Converter.CEvent.buildModel, Converter.CEvent.loadCheckpoint,
        Converter.CEvent.printError, Converter.CEvent.exitNonzero]) :=
  (missing_keys_fatal ⟨"w.pth", "m.mlpackage", false, "mac", 64, 2048, 64⟩
    [("foo", [])] true (by decide) (by decide)).1

/-- C3, counterexample: for the single-element array [1/2] (max ≤ 1), the
code's save path — cast to uint8, which truncates — yields 127, while the
claim's `round(clip(arr*255,0,255))` yields 128. -/
theorem finalImage_round_cex :
    QuickSR.finalImage [1/2] ≠ QuickSR.specFinalImageRound [1/2] := by
  have hfl : ⌊(255 : ℚ)/2⌋ = 127 := by norm_num
  have hmax : QuickSR.arrMax [(1:ℚ)/2] ≤ 1 := by
    norm_num [QuickSR.arrMax]
  have hc : clip 0 255 ((1:ℚ)/2 * 255) = 255/2 := by
    norm_num [clip, max_def, min_def]
  have hr : roundHalfEven ((255:ℚ)/2) = 128 := by
    unfold roundHalfEven
    rw [hfl]
    norm_num
  have h1 : QuickSR.finalImage [1/2] = [127] := by
    unfold QuickSR.finalImage
    rw [if_pos hmax]
    simp only [List.map_cons, List.map_nil]
    congr 1
    rw [hc]
    norm_num [truncQ, hfl]
  have h2 : QuickSR.specFinalImageRound [1/2] = [128] := by
    unfold QuickSR.specFinalImageRound
    rw [if_pos hmax]
    simp only [List.map_cons, List.map_nil]
    congr 1
    rw [hc, hr]
  rw [h1, h2]
  decide

/-- C3, amended: the final saved image equals the elementwise floor (the
uint8 cast truncates toward zero, and the clipped values are nonnegative,
so the cast is a floor, not a round) of `clip(arr*255,0,255)` when the
array's max is ≤ 1, and of `clip(arr,0,255)` otherwise. -/
theorem finalImage_eq_floor (arr : List ℚ) :
    QuickSR.finalImage arr = QuickSR.specFinalImageFloor arr := by
  have key : ∀ v : ℚ, truncQ (clip 0 255 v) = ⌊clip 0 255 v⌋ := by
    intro v
    have h0 : (0:ℚ) ≤ clip 0 255 v :=
      le_min (le_max_right v 0) (by norm_num)
    simp [truncQ, h0]
  unfold QuickSR.finalImage QuickSR.specFinalImageFloor
  split <;> simp [key]

/-- C5, counterexample: with the model loading fine but the input image
unreadable, the runner does not catch the failure — `load_image` at line
55 sits outside every try block, so the exception propagates and the
process crashes instead of soft-returning. -/
theorem imageLoad_failure_uncaught_cex :
    (QuickSR.quickSRMain
        ⟨Except.ok (), Except.error "cannot identify image file",
         fun _ => Except.ok []⟩ "output" "o.png").1
      = QuickSR.RunOutcome.uncaught "cannot identify image file" ∧
    ∀ m, (QuickSR.quickSRMain
        ⟨Except.ok (), Except.error "cannot identify image file",
         fun _ => Except.ok []⟩ "output" "o.png").1
      ≠ QuickSR.RunOutcome.softErr m := by
  constructor
  · rfl
  · intro m
    simp [QuickSR.quickSRMain]

/-- C5, amended: model-load failure and prediction failure are each
caught, reported with a printed message, and cause an early soft return;
but an input-image load failure is not caught — it propagates out of
`main` and is never a soft return. -/
theorem quickSR_failure_handling :
    (∀ (env : QuickSR.RunEnv) (hd op e : String),
        env.loadModel = Except.error e →
        QuickSR.quickSRMain env hd op
          = (QuickSR.RunOutcome.softErr e, [QuickSR.REvent.printErr e])) ∧
    (∀ (env : QuickSR.RunEnv) (hd op : String) (inp : QuickSR.PImage)
        (e : String),
        env.loadModel = Except.ok () →
        env.loadInput = Except.ok inp →
        env.predictResult inp = Except.error e →
        QuickSR.quickSRMain env hd op
          = (QuickSR.RunOutcome.softErr e, [QuickSR.REvent.printErr e])) ∧
    (∀ (env : QuickSR.RunEnv) (hd op e : String),
        env.loadModel = Except.ok () →
        env.loadInput = Except.error e →
        ((QuickSR.quickSRMain env hd op).1 = QuickSR.RunOutcome.uncaught e ∧
         ∀ m, (QuickSR.quickSRMain env hd op).1 ≠ QuickSR.RunOutcome.softErr m)) := by
  refine ⟨?_, ?_, ?_⟩
  · intro env hd op e h
    simp [QuickSR.quickSRMain, h]
  · intro env hd op inp e hm hi hp
    simp [QuickSR.quickSRMain, hm, hi, hp]
  · intro env hd op e hm hi
    constructor
    · simp [QuickSR.quickSRMain, hm, hi]
    · intro m
      simp [QuickSR.quickSRMain, hm, hi]

/-- Witness for C5's amended statement, at concrete environments. -/
theorem quickSR_failure_handling_witness :
    QuickSR.quickSRMain
        ⟨Except.error "no model", Except.ok ⟨"RGB", 1, 1, []⟩,
         fun _ => Except.ok []⟩ "output" "o.png"
      = (QuickSR.RunOutcome.softErr "no model",
         [QuickSR.REvent.printErr "no model"]) ∧
    QuickSR.quickSRMain
        ⟨Except.ok (), Except.ok ⟨"RGB", 1, 1, []⟩,
         fun _ => Except.error "predict failed"⟩ "output" "o.png"
      = (QuickSR.RunOutcome.softErr "predict failed",
         [QuickSR.REvent.printErr "predict failed"]) ∧
    (QuickSR.quickSRMain
        ⟨Except.ok (), Except.error "bad file", fun _ => Except.ok []⟩
        "output" "o.png").1
      = QuickSR.RunOutcome.uncaught "bad file" :=
  ⟨quickSR_failure_handling.1 _ "output" "o.png" "no model" rfl,
   quickSR_failure_handling.2.1 _ "output" "o.png" ⟨"RGB", 1, 1, []⟩
     "predict failed" rfl rfl rfl,
   (quickSR_failure_handling.2.2 _ "output" "o.png" "bad file" rfl rfl).1⟩

/-- C6: when the prediction result lacks the key `output_image` but has at
least one entry, the runner selects the first key, prints the fallback
DEBUG report, and runs to the end of `main` (here with an image value, as
the later type check requires). -/
theorem output_key_fallback
    (env : QuickSR.RunEnv) (hd op : String) (inp : QuickSR.PImage)
    (k : String) (img : QuickSR.PImage)
    (rest : List (String × QuickSR.PredValue))
    (hk : QuickSR.lookupPV ((k, QuickSR.PredValue.image img) :: rest)
            "output_image" = none)
    (hm : env.loadModel = Except.ok ())
    (hi : env.loadInput = Except.ok inp)
    (hp : env.predictResult inp
            = Except.ok ((k, QuickSR.PredValue.image img) :: rest)) :
    QuickSR.selectOutput ((k, QuickSR.PredValue.image img) :: rest)
      = some (k, QuickSR.PredValue.image img, true) ∧
    QuickSR.REvent.printFallback k ∈ (QuickSR.quickSRMain env hd op).2 ∧
    (QuickSR.quickSRMain env hd op).1 = QuickSR.RunOutcome.finished := by
  have hsel : QuickSR.selectOutput ((k, QuickSR.PredValue.image img) :: rest)
      = some (k, QuickSR.PredValue.image img, true) := by
    simp [QuickSR.selectOutput, hk]
  refine ⟨hsel, ?_, ?_⟩ <;>
    simp [QuickSR.quickSRMain, hm, hi, hp, hsel]

/-- Witness for C6: a result holding only the key `sr_out`. -/
theorem output_key_fallback_witness :
    QuickSR.selectOutput [("sr_out", QuickSR.PredValue.image ⟨"RGB", 1, 1, []⟩)]
      = some ("sr_out", QuickSR.PredValue.image ⟨"RGB", 1, 1, []⟩, true) ∧
    QuickSR.REvent.printFallback "sr_out"
      ∈ (QuickSR.quickSRMain
          ⟨Except.ok (), Except.ok ⟨"RGB", 1, 1, []⟩,
           fun _ => Except.ok
             [("sr_out", QuickSR.PredValue.image ⟨"RGB", 1, 1, []⟩)]⟩
          "output" "o.png").2 ∧
    (QuickSR.quickSRMain
        ⟨Except.ok (), Except.ok ⟨"RGB", 1, 1, []⟩,
         fun _ => Except.ok
           [("sr_out", QuickSR.PredValue.image ⟨"RGB", 1, 1, []⟩)]⟩
        "output" "o.png").1 = QuickSR.RunOutcome.finished :=
  output_key_fallback _ "output" "o.png" ⟨"RGB", 1, 1, []⟩ "sr_out"
    ⟨"RGB", 1, 1, []⟩ [] (by decide) rfl rfl rfl

/-- C8: with a floating-point model output, the runner writes the raw
float dump and the float histogram into the histogram directory (events
at positions 0 and 1) before `os.makedirs` runs (position 3): the
directory is not created before the first histogram write. -/
theorem float_hist_written_before_makedirs :
    (QuickSR.quickSRMain
        ⟨Except.ok (), Except.ok ⟨"RGB", 4, 4, []⟩,
         fun _ => Except.ok
           [("output_image", QuickSR.PredValue.image ⟨"F", 16, 16, []⟩)]⟩
        "output" "o.png").2
      = [QuickSR.REvent.saveNpy "output/output_float.npy",
         QuickSR.REvent.saveFig "output/hist_output_float.png",
         QuickSR.REvent.saveImage "o.png" ⟨16, 16, 1, 8, []⟩,
         QuickSR.REvent.makeDirs "output",
         QuickSR.REvent.saveFig "output/hist_output.png"] ∧
    List.indexOf (QuickSR.REvent.saveFig "output/hist_output_float.png")
        (QuickSR.quickSRMain
          ⟨Except.ok (), Except.ok ⟨"RGB", 4, 4, []⟩,
           fun _ => Except.ok
             [("output_image", QuickSR.PredValue.image ⟨"F", 16, 16, []⟩)]⟩
          "output" "o.png").2
      < List.indexOf (QuickSR.REvent.makeDirs "output")
        (QuickSR.quickSRMain
          ⟨Except.ok (), Except.ok ⟨"RGB", 4, 4, []⟩,
           fun _ => Except.ok
             [("output_image", QuickSR.PredValue.image ⟨"F", 16, 16, []⟩)]⟩
          "output" "o.png").2 := by
  constructor
  · rfl
  · decide

/-- C9, counterexample: the exported model upscales 4x, so a 64x64 input
yields a 256x256 output; the image the runner saves has the output's
dimensions, and reloading it with `load_image` yields a 256x256 image —
not one matching the 64x64 original input. -/
theorem saved_image_dims_cex :
    QuickSR.modelOutputDims 64 64 = (256, 256) ∧
    (QuickSR.load_image (QuickSR.saveOutputImage ⟨"RGB", 256, 256, []⟩)).height
      = 256 ∧
    (QuickSR.load_image (QuickSR.saveOutputImage ⟨"RGB", 256, 256, []⟩)).height
      ≠ 64 := by
  refine ⟨rfl, rfl, ?_⟩
  decide

/-- C9, amended: reloading the saved file yields a 3-channel 8-bit RGB
image whose dimensions match the saved model output's — 4x the original
input's under the fixed 4x architecture — and hence differ from the
original input's dimensions. -/
theorem saved_image_roundtrip_amended
    (h w : Nat) (m : String) (px : List ℚ) (hh : 1 ≤ h) :
    QuickSR.modelOutputDims h w = (4 * h, 4 * w) ∧
    (QuickSR.saveOutputImage ⟨m, 4 * h, 4 * w, px⟩).bitsPerSample = 8 ∧
    (QuickSR.load_image (QuickSR.saveOutputImage ⟨m, 4 * h, 4 * w, px⟩)).mode
      = "RGB" ∧
    QuickSR.modeChannels
      (QuickSR.load_image (QuickSR.saveOutputImage ⟨m, 4 * h, 4 * w, px⟩)).mode
      = 3 ∧
    (QuickSR.load_image (QuickSR.saveOutputImage ⟨m, 4 * h, 4 * w, px⟩)).height
      = 4 * h ∧
    (QuickSR.load_image (QuickSR.saveOutputImage ⟨m, 4 * h, 4 * w, px⟩)).width
      = 4 * w ∧
    (QuickSR.load_image (QuickSR.saveOutputImage ⟨m, 4 * h, 4 * w, px⟩)).height
      ≠ h := by
  refine ⟨rfl, rfl, rfl, rfl, rfl, rfl, ?_⟩
  simp [QuickSR.load_image, QuickSR.saveOutputImage]
  omega

/-- Witness for C9's amended statement at a 64x48 input with a float-mode
model output. -/
theorem saved_image_roundtrip_amended_witness :
    QuickSR.modelOutputDims 64 48 = (4 * 64, 4 * 48) ∧
    (QuickSR.saveOutputImage ⟨"F", 4 * 64, 4 * 48, []⟩).bitsPerSample = 8 ∧
    (QuickSR.load_image (QuickSR.saveOutputImage ⟨"F", 4 * 64, 4 * 48, []⟩)).mode
      = "RGB" ∧
    QuickSR.modeChannels
      (QuickSR.load_image (QuickSR.saveOutputImage ⟨"F", 4 * 64, 4 * 48, []⟩)).mode
      = 3 ∧
    (QuickSR.load_image (QuickSR.saveOutputImage ⟨"F", 4 * 64, 4 * 48, []⟩)).height
      = 4 * 64 ∧
    (QuickSR.load_image (QuickSR.saveOutputImage ⟨"F", 4 * 64, 4 * 48, []⟩)).width
      = 4 * 48 ∧
    (QuickSR.load_image (QuickSR.saveOutputImage ⟨"F", 4 * 64, 4 * 48, []⟩)).height
      ≠ 64 :=
  saved_image_roundtrip_amended 64 48 "F" [] (by decide)

/-- C10: when the selected output value is not an image, the runner's
TypeError is raised outside every try block: the run ends as an uncaught
fatal error, never as a caught soft failure. -/
theorem non_image_output_fatal
    (env : QuickSR.RunEnv) (hd op : String) (inp : QuickSR.PImage)
    (result : List (String × QuickSR.PredValue)) (k t : String) (b : Bool)
    (hm : env.loadModel = Except.ok ())
    (hi : env.loadInput = Except.ok inp)
    (hp : env.predictResult inp = Except.ok result)
    (hs : QuickSR.selectOutput result
            = some (k, QuickSR.PredValue.other t, b)) :
    (QuickSR.quickSRMain env hd op).1
      = QuickSR.RunOutcome.uncaught ("TypeError: " ++ t) ∧
    ∀ m, (QuickSR.quickSRMain env hd op).1
      ≠ QuickSR.RunOutcome.softErr m := by
  constructor
  · simp [QuickSR.quickSRMain, hm, hi, hp, hs]
  · intro m
    simp [QuickSR.quickSRMain, hm, hi, hp, hs]

/-- Witness for C10: a result whose only value is a numpy array. -/
theorem non_image_output_fatal_witness :
    (QuickSR.quickSRMain
        ⟨Except.ok (), Except.ok ⟨"RGB", 1, 1, []⟩,
         fun _ => Except.ok
           [("output_image", QuickSR.PredValue.other "ndarray")]⟩
        "output" "o.png").1
      = QuickSR.RunOutcome.uncaught ("TypeError: " ++ "ndarray") :=
  (non_image_output_fatal _ "output" "o.png" ⟨"RGB", 1, 1, []⟩
    [("output_image", QuickSR.PredValue.other "ndarray")]
    "output_image" "ndarray" false rfl rfl rfl (by decide)).1

end SimpleImageSR
